import Mathlib

/-!
Verification of the MarketDataApp client library's request/response pipeline
and symbol model, as a shallow embedding of the repository's Python source.

Sources embedded (the Python is transcribed, not simplified):
  * `src/marketdata/options.py` `get_option_symbol` and
    `src/market_data_api/Option.py` `Option._build_option_symbol`
    (identical bodies): the OCC-style option-symbol derivation;
  * `src/src/market_data_api/MarketDataAPI.py` `MarketDataAPI.get_data_from_url`,
    `process_not_ok_response` and `get_market_status`: the rate-limit gate,
    header observation and the market-status operation;
  * `src/marketdata/api_interface.py` `get_final_url`, `process_not_ok_response`,
    `get_history`, `get_option_chain`, `src/mdapi_functions/markets.py`
    `get_market_status` and `src/market_data_api/Symbol.py`
    `_format_candle_data` (the body-normalization logic of the last two is
    line-for-line the logic of the class versions, so it is embedded once):
    classification and table normalization.  The pandas operations used
    there — DataFrame construction from a JSON mapping, column assignment,
    `rename`, `drop(axis=1)`, `reindex(columns=...)` — are modelled by a
    small ordered-column table;
  * `src/marketdata/stocks.py` `get_stock_history`: query-parameter assembly.

Python scalars are modelled exactly: numbers as `ℚ`/`Int`/`Nat`
(`int(x)` is truncation toward zero), strings as `String`, `None` as
`Option.none`; a raised exception is an `Except.error`.  `urlencode`'s
percent-encoding is modelled byte-accurately for the ASCII range, the only
range these APIs' keys and values use.
-/

/-- Scalar value as it appears in a parsed JSON body or a table cell.
`absent` stands for pandas' NaN marker that `reindex` fills a missing
column with. -/
inductive Cell where
  | str (s : String)
  | num (q : ℚ)
  | bool (b : Bool)
  | absent
deriving DecidableEq

/-- Value of one field of a parsed JSON object: a scalar or an array of
scalars (the only shapes the embedded endpoints produce). -/
inductive JField where
  | scalar (c : Cell)
  | array (xs : List Cell)
deriving DecidableEq

/-- Parsed JSON body: an ordered mapping from field name to value, as
`json.loads` hands it to the normalizers. -/
abbrev Body := List (String × JField)

/-- Dictionary access `body[k]` without the KeyError (that is modelled at
each use site): the first binding of `k`. -/
def Body.get? (body : Body) (k : String) : Option JField :=
  List.lookup k body

/-- Exceptions the embedded Python can raise. -/
inductive PyError where
  | keyError
  | valueError
  | typeError
  | attributeError
  | exception
deriving DecidableEq

/-! ## Decimal rendering of integers (Python `str` and `'{:0>8}'.format`) -/

/-- Decimal digits of `n`, most significant first, by repeated division;
`fuel` bounds the recursion and `n + 1` is always enough.  Transcribes what
Python `str` produces for a non-negative `int`. -/
def pyNatStrAux (fuel : Nat) (n : Nat) : List Char :=
  match fuel with
  | 0 => []
  | fuel + 1 =>
    if n < 10 then [Nat.digitChar n]
    else pyNatStrAux fuel (n / 10) ++ [Nat.digitChar (n % 10)]

/-- Python `str(n)` for a natural number. -/
def pyNatStr (n : Nat) : String :=
  ⟨pyNatStrAux (n + 1) n⟩

/-- Python `str(i)` for an `int`: a minus sign then the digits when
negative. -/
def pyIntStr (i : Int) : String :=
  if i < 0 then ⟨'-' :: (pyNatStr i.natAbs).data⟩ else pyNatStr i.toNat

/-- Python `int(q)` on an exact number: truncation toward zero. -/
def pyInt (q : ℚ) : Int :=
  if 0 ≤ q then ⌊q⌋ else ⌈q⌉

/-- Python `'{:0>w}'.format(s)`: left-pad with `'0'` to width `w`.  The
string is returned unchanged when already at least `w` long; note this
format spec pads the whole rendered string, sign included. -/
def zfill (w : Nat) (s : String) : String :=
  ⟨List.replicate (w - s.length) '0' ++ s.data⟩

/-! ## Option-symbol derivation
`src/marketdata/options.py` lines 31–46 (`get_option_symbol`) and
`src/market_data_api/Option.py` lines 34–41 (`Option._build_option_symbol`):

    expiry_date = datetime.datetime.strptime(expiry_date, '%Y-%m-%d').strftime('%y%m%d')
    strike_price = '\x7b:0>8\x7d'.format(int(strike_price * 1000))
    option_symbol = f'...'   -- the four parts concatenated
-/

/-- Calendar date as `strptime(_, '%Y-%m-%d')` yields it; `strptime`
guarantees `1 ≤ month ≤ 12` and `1 ≤ day ≤ 31`. -/
structure PyDate where
  year : Nat
  month : Nat
  day : Nat

/-- Option type; `Option.__init__` maps CALL to the letter C and PUT to P. -/
inductive OptionType where
  | call
  | put

/-- Single-letter type code used inside the symbol. -/
def typeLetter : OptionType → String
  | .call => "C"
  | .put => "P"

/-- The `strftime('%y%m%d')` format: two-digit year (`year mod 100`),
zero-padded month and day. -/
def fmtYYMMDD (d : PyDate) : String :=
  zfill 2 (pyNatStr (d.year % 100)) ++ zfill 2 (pyNatStr d.month) ++ zfill 2 (pyNatStr d.day)

/-- The option-symbol derivation of `get_option_symbol` /
`Option._build_option_symbol`: underlying, expiry as YYMMDD, the type
letter and `'\x7b:0>8\x7d'.format(int(strike_price * 1000))` concatenated.
Neither source function validates the strike anywhere. -/
def getOptionSymbol (underlying : String) (expiry : PyDate) (ot : OptionType)
    (strikePrice : ℚ) : String :=
  underlying ++ fmtYYMMDD expiry ++ typeLetter ot ++
    zfill 8 (pyIntStr (pyInt (strikePrice * 1000)))

/-- Modelled from the spec: the `round(strikePrice * 1000)` that §4.5 and §8
of the spec prescribe for the strike digits (rounding to the nearest
integer, stated here as round-half-up; every input this development
evaluates it at is far from a tie, so any tie-breaking convention agrees).
The source code truncates with `int(...)` instead; `claimRound` exists only
to state the spec's formula for comparison. -/
def claimRound (q : ℚ) : Int :=
  ⌊q + 1 / 2⌋

/-! ## Ordered-column tables (the pandas operations the sources use) -/

/-- One named column. -/
structure Col where
  name : String
  cells : List Cell
deriving DecidableEq

/-- A pandas DataFrame as the sources use it: an ordered list of named,
equal-length columns. -/
structure DataFrame where
  cols : List Col
deriving DecidableEq

/-- Column labels, in order. -/
def DataFrame.colNames (df : DataFrame) : List String :=
  df.cols.map Col.name

/-- Number of rows (length of the shared index). -/
def DataFrame.nrows (df : DataFrame) : Nat :=
  match df.cols with
  | [] => 0
  | c :: _ => c.cells.length

/-- Row `i` of the table, one cell per column. -/
def DataFrame.row (df : DataFrame) (i : Nat) : List Cell :=
  df.cols.map (fun c => c.cells.getD i Cell.absent)

/-- All rows in order. -/
def DataFrame.rowsList (df : DataFrame) : List (List Cell) :=
  (List.range df.nrows).map df.row

/-- A label under a pandas rename mapping: its image when mapped, itself
otherwise. -/
def renameKey (m : List (String × String)) (k : String) : String :=
  match List.lookup k m with
  | some k2 => k2
  | Option.none => k

/-- `df.rename(columns=m)`. -/
def DataFrame.rename (df : DataFrame) (m : List (String × String)) : DataFrame :=
  ⟨df.cols.map (fun c => ⟨renameKey m c.name, c.cells⟩)⟩

/-- `df.drop(ks, axis=1)` (every use site drops a label that is present). -/
def DataFrame.drop (df : DataFrame) (ks : List String) : DataFrame :=
  ⟨df.cols.filter (fun c => !(ks.contains c.name))⟩

/-- `df.reindex(columns=names)`: exactly the requested columns in the
requested order, a missing one filled with the absent marker. -/
def DataFrame.reindex (df : DataFrame) (names : List String) : DataFrame :=
  ⟨names.map (fun k =>
    match df.cols.find? (fun c => c.name == k) with
    | some c => c
    | Option.none => ⟨k, List.replicate df.nrows Cell.absent⟩)⟩

/-- `df[k] = v` for a scalar `v`: broadcast over the index, replacing the
column when the label exists and appending it otherwise. -/
def DataFrame.setConst (df : DataFrame) (k : String) (v : Cell) : DataFrame :=
  if df.colNames.contains k then
    ⟨df.cols.map (fun c => if c.name == k then ⟨k, List.replicate df.nrows v⟩ else c)⟩
  else
    ⟨df.cols ++ [⟨k, List.replicate df.nrows v⟩]⟩

/-- Lengths of the array-valued fields of a body, in order. -/
def arrayLens (body : Body) : List Nat :=
  body.filterMap (fun kv =>
    match kv.2 with
    | JField.array xs => some xs.length
    | JField.scalar _ => Option.none)

/-- `pd.DataFrame(response_json)`: one column per field in key order, a
scalar broadcast over the index.  pandas raises ValueError when the arrays
disagree in length or when every value is a scalar; both are `none` here. -/
def mkDataFrame (body : Body) : Option DataFrame :=
  match arrayLens body with
  | [] => Option.none
  | n :: rest =>
    if rest.all (fun m => m == n) then
      some ⟨body.map (fun kv =>
        ⟨kv.1, match kv.2 with
               | JField.scalar c => List.replicate n c
               | JField.array xs => xs⟩)⟩
    else Option.none

/-! ## Classification of non-ok responses
`src/marketdata/api_interface.py` lines 43–56 and
`src/src/market_data_api/MarketDataAPI.py` lines 96–110 (identical logic):
a `match` on `response_json['s']` with cases only for `'no_data'` and
`'error'`; Python returns `None` when no case matches. -/

/-- Result of a Python function call: a normalized table or the value
`process_not_ok_response` returned (`None` modelled as `Option.none`). -/
inductive PyRet where
  | table (df : DataFrame)
  | message (m : Option JField)
deriving DecidableEq

/-- `process_not_ok_response(response_json)`: `'No Data'` for `no_data`,
`response_json['errmsg']` for `error`, and — the `match` having no other
case — `None` for every other discriminator value. -/
def processNotOkResponse (body : Body) : Except PyError (Option JField) :=
  match Body.get? body "s" with
  | Option.none => Except.error PyError.keyError
  | some sv =>
    if sv = JField.scalar (Cell.str "no_data") then
      Except.ok (some (JField.scalar (Cell.str "No Data")))
    else if sv = JField.scalar (Cell.str "error") then
      match Body.get? body "errmsg" with
      | Option.none => Except.error PyError.keyError
      | some m => Except.ok (some m)
    else Except.ok Option.none

/-- An HTTP response as the normalizers consume it: its headers and its
parsed body (`Option.none` for an empty `response.text`). -/
structure Response where
  headers : String → Option String
  text : Option Body

/-- The candle rename table of `get_history` / `_format_candle_data`. -/
def candleRenameMap : List (String × String) :=
  [("c", "close"), ("h", "high"), ("l", "low"), ("o", "open"), ("v", "volume"), ("t", "date")]

/-- The candle `reindex` column list. -/
def candleFinalCols : List String :=
  ["symbol", "date", "close", "high", "low", "open", "volume"]

/-- `get_history(final_url, symbol)` of `src/marketdata/api_interface.py`
lines 59–86 (and `Symbol._format_candle_data`, identical), after the GET:
empty text raises; `s == 'ok'` builds the DataFrame, assigns the requested
symbol over every row, renames, drops `'s'` and reindexes; any other
status is routed to `process_not_ok_response`. -/
def getHistory (resp : Response) (symbol : String) : Except PyError PyRet :=
  match resp.text with
  | Option.none => Except.error PyError.exception
  | some body =>
    match Body.get? body "s" with
    | Option.none => Except.error PyError.keyError
    | some sv =>
      if sv = JField.scalar (Cell.str "ok") then
        match mkDataFrame body with
        | Option.none => Except.error PyError.valueError
        | some df =>
          Except.ok (PyRet.table
            ((((df.setConst "symbol" (Cell.str symbol)).rename candleRenameMap).drop
              ["s"]).reindex candleFinalCols))
      else
        (processNotOkResponse body).map PyRet.message

/-- Body normalization of `get_market_status`
(`src/mdapi_functions/markets.py` lines 60–73 and
`MarketDataAPI.get_market_status` lines 212–226, identical logic): on
`'ok'`, `pd.DataFrame(list(zip(dates, status)), columns=['date','status'])`
— Python's `zip` silently truncates to the shorter list. -/
def getMarketStatusBody (body : Body) : Except PyError PyRet :=
  match Body.get? body "s" with
  | Option.none => Except.error PyError.keyError
  | some sv =>
    if sv = JField.scalar (Cell.str "ok") then
      match Body.get? body "date", Body.get? body "status" with
      | some (JField.array ds), some (JField.array ss) =>
        Except.ok (PyRet.table
          ⟨[⟨"date", (ds.zip ss).map Prod.fst⟩, ⟨"status", (ds.zip ss).map Prod.snd⟩]⟩)
      | Option.none, _ => Except.error PyError.keyError
      | _, Option.none => Except.error PyError.keyError
      | _, _ => Except.error PyError.typeError
    else (processNotOkResponse body).map PyRet.message

/-- The option-chain wire field names, in the key order of the response
object (`rename_columns` of `get_option_chain` lists them in this order,
after `'s'`). -/
def ocWireKeys : List String :=
  ["updated", "optionSymbol", "underlying", "expiration", "side", "strike",
   "firstTraded", "dte", "bid", "bidSize", "mid", "ask", "askSize", "last",
   "openInterest", "volume", "inTheMoney", "intrinsicValue", "extrinsicValue",
   "underlyingPrice", "iv", "delta", "gamma", "theta", "vega", "rho"]

/-- The `rename_columns` mapping of `get_option_chain`
(`src/marketdata/api_interface.py` lines 200–208), including the
source's misspelling `extrnisic_value`. -/
def ocRenameMap : List (String × String) :=
  [("s", "status"), ("updated", "updated"), ("optionSymbol", "option_symbol"),
   ("underlying", "underlying"), ("expiration", "expiry_date"), ("side", "option_type"),
   ("strike", "strike_price"), ("firstTraded", "first_traded_date"), ("dte", "dte"),
   ("bid", "bid"), ("bidSize", "bid_size"), ("mid", "mid"), ("ask", "ask"),
   ("askSize", "ask_size"), ("last", "last_price"), ("openInterest", "open_interest"),
   ("volume", "volume"), ("inTheMoney", "in_the_money"),
   ("intrinsicValue", "intrinsic_value"), ("extrinsicValue", "extrnisic_value"),
   ("underlyingPrice", "underlying_price"), ("iv", "iv"), ("delta", "delta"),
   ("gamma", "gamma"), ("theta", "theta"), ("vega", "vega"), ("rho", "rho")]

/-- The `final_columns` list of `get_option_chain` (lines 209–212). -/
def ocFinalCols : List String :=
  ["updated", "option_symbol", "underlying", "expiry_date", "option_type", "strike_price",
   "first_traded_date", "dte", "bid", "bid_size", "mid", "ask", "ask_size",
   "last_price", "open_interest", "volume", "in_the_money", "intrinsic_value",
   "extrnisic_value", "underlying_price", "iv", "delta", "gamma", "theta", "vega", "rho"]

/-- `get_option_chain(final_url)` of `src/marketdata/api_interface.py`
lines 193–223 (and `Symbol._format_option_chain_data`, identical), after
the GET: on `'ok'` the DataFrame is built, renamed (`'s'` becomes
`'status'`), `'status'` is dropped and the result reindexed to the fixed
26-column schema. -/
def getOptionChainResp (resp : Response) : Except PyError PyRet :=
  match resp.text with
  | Option.none => Except.error PyError.exception
  | some body =>
    match Body.get? body "s" with
    | Option.none => Except.error PyError.keyError
    | some sv =>
      if sv = JField.scalar (Cell.str "ok") then
        match mkDataFrame body with
        | Option.none => Except.error PyError.valueError
        | some df =>
          Except.ok (PyRet.table (((df.rename ocRenameMap).drop ["status"]).reindex ocFinalCols))
      else
        (processNotOkResponse body).map PyRet.message

/-! ## Rate-limit state and the transport gate
`src/src/market_data_api/MarketDataAPI.py`: the four private
`__api_ratelimit_*` attributes (initialized to `None`, lines 68–71) and
`get_data_from_url` (lines 124–152). -/

/-- The four tracked header values, each `None` until first observed.
Fields in the order the attributes are initialized: limit, consumed,
remaining, reset. -/
structure RateLimitState where
  limit : Option Int
  consumed : Option Int
  remaining : Option Int
  reset : Option Int
deriving DecidableEq

/-- The attributes of a fresh `MarketDataAPI` instance. -/
def initRateLimitState : RateLimitState :=
  ⟨Option.none, Option.none, Option.none, Option.none⟩

/-- The gate condition of `get_data_from_url` line 133:
`self.__api_ratelimit_remaining is None or self.__api_ratelimit_remaining > 0`. -/
def canProceed (st : RateLimitState) : Bool :=
  match st.remaining with
  | Option.none => true
  | some r => decide (0 < r)

/-- Decimal value of a digit character, if it is one. -/
def digitVal? (c : Char) : Option Nat :=
  if c.isDigit then some (c.toNat - 48) else Option.none

/-- The natural number a list of characters spells in decimal, if all of
them are digits and there is at least one. -/
def decDigitsVal? (cs : List Char) : Option Nat :=
  match cs with
  | [] => Option.none
  | _ :: _ =>
    cs.foldl (fun acc c =>
      match acc, digitVal? c with
      | some a, some d => some (a * 10 + d)
      | _, _ => Option.none) (some 0)

/-- Python `int(s)` on a string: an optional minus sign followed by
decimal digits; anything else raises (signalled by `Option.none`). -/
def pyStrToInt? (s : String) : Option Int :=
  match s.data with
  | '-' :: rest => (decDigitsVal? rest).map (fun n => -(n : Int))
  | cs => (decDigitsVal? cs).map (fun n => (n : Int))

/-- `int(response.headers[k])`: KeyError when the header is missing,
ValueError when its value is not an integer literal. -/
def parseHeaderInt (h : String → Option String) (k : String) : Except PyError Int :=
  match h k with
  | Option.none => Except.error PyError.keyError
  | some v =>
    match pyStrToInt? v with
    | Option.none => Except.error PyError.valueError
    | some i => Except.ok i

def hdrLimit : String := "x-api-ratelimit-limit"
def hdrConsumed : String := "x-api-ratelimit-consumed"
def hdrReset : String := "x-api-ratelimit-reset"
def hdrRemaining : String := "x-api-ratelimit-remaining"

/-- What `get_data_from_url` returns: the response object, or — when the
gate is closed — the plain string `"Rate Limit Exceeded"`. -/
inductive PyObj where
  | resp (r : Response)
  | pystr (s : String)

/-- Outcome of one `get_data_from_url` call: the returned value (or the
exception), the rate-limit attributes afterwards, and whether
`requests.get` was invoked. -/
structure StepOut where
  result : Except PyError PyObj
  state : RateLimitState
  sent : Bool

/-- `get_data_from_url(url, params)` (lines 124–152).  When the gate is
open the GET is performed and the four attributes are assigned, in source
order limit, consumed, reset, remaining, from `int(response.headers[...])`
— a failing conversion raises there, leaving the earlier assignments in
place.  When the gate is closed nothing is sent and the string
`"Rate Limit Exceeded"` is returned with the state untouched. -/
def getDataFromUrl (st : RateLimitState) (resp : Response) : StepOut :=
  if canProceed st then
    match parseHeaderInt resp.headers hdrLimit with
    | Except.error e => ⟨Except.error e, st, true⟩
    | Except.ok lim =>
      let st1 := { st with limit := some lim }
      match parseHeaderInt resp.headers hdrConsumed with
      | Except.error e => ⟨Except.error e, st1, true⟩
      | Except.ok con =>
        let st2 := { st1 with consumed := some con }
        match parseHeaderInt resp.headers hdrReset with
        | Except.error e => ⟨Except.error e, st2, true⟩
        | Except.ok rst =>
          let st3 := { st2 with reset := some rst }
          match parseHeaderInt resp.headers hdrRemaining with
          | Except.error e => ⟨Except.error e, st3, true⟩
          | Except.ok rem => ⟨Except.ok (PyObj.resp resp), { st3 with remaining := some rem }, true⟩
  else ⟨Except.ok (PyObj.pystr "Rate Limit Exceeded"), st, false⟩

/-- The rate-limit attributes after a sequence of `get_data_from_url`
calls against the given responses. -/
def runCalls (st : RateLimitState) (rs : List Response) : RateLimitState :=
  rs.foldl (fun s r => (getDataFromUrl s r).state) st

/-- The first exception the four header reads of `get_data_from_url` would
raise, in their source order, if any. -/
def firstHeaderError (h : String → Option String) : Option PyError :=
  match parseHeaderInt h hdrLimit with
  | Except.error e => some e
  | Except.ok _ =>
    match parseHeaderInt h hdrConsumed with
    | Except.error e => some e
    | Except.ok _ =>
      match parseHeaderInt h hdrReset with
      | Except.error e => some e
      | Except.ok _ =>
        match parseHeaderInt h hdrRemaining with
        | Except.error e => some e
        | Except.ok _ => Option.none

/-- Outcome of one public operation call. -/
structure OpOut where
  result : Except PyError PyRet
  state : RateLimitState
  sent : Bool

/-- `MarketDataAPI.get_market_status` (lines 162–226) from the
`get_data_from_url` call on: the very next line formats
`response.status_code` into a debug message, so a denied call — which
returned a plain string — raises AttributeError there; an empty
`response.text` raises; otherwise the body is normalized as
`getMarketStatusBody`. -/
def getMarketStatusStep (st : RateLimitState) (resp : Response) : OpOut :=
  match getDataFromUrl st resp with
  | ⟨Except.error e, st2, sent⟩ => ⟨Except.error e, st2, sent⟩
  | ⟨Except.ok (PyObj.pystr _), st2, sent⟩ => ⟨Except.error PyError.attributeError, st2, sent⟩
  | ⟨Except.ok (PyObj.resp r), st2, sent⟩ =>
    match r.text with
    | Option.none => ⟨Except.error PyError.exception, st2, sent⟩
    | some body => ⟨getMarketStatusBody body, st2, sent⟩

/-! ## Query building
`src/marketdata/api_interface.py` `get_final_url` (lines 31–40) —
`urllib.parse.urlencode(params)` appended to the base url after `&` — and
the parameter assembly of `src/marketdata/stocks.py` `get_stock_history`
(lines 54–80): a chain of `if value:` truthiness checks, each inserting
the value unchanged. -/

/-- A query-parameter value as the sources pass it. -/
inductive PVal where
  | str (s : String)
  | num (n : Int)
  | bool (b : Bool)
deriving DecidableEq

/-- Python truthiness of such a value. -/
def pyTruthy : PVal → Bool
  | PVal.str s => !s.isEmpty
  | PVal.num n => n != 0
  | PVal.bool b => b

/-- Python `str()` of such a value — note `str(True) = "True"` and
`str(False) = "False"`, capitalized. -/
def pyStr : PVal → String
  | PVal.str s => s
  | PVal.num n => pyIntStr n
  | PVal.bool b => if b then "True" else "False"

/-- Characters `urllib.parse.quote_plus` passes through unescaped. -/
def isUrlSafe (c : Char) : Bool :=
  c.isAlphanum || c == '_' || c == '.' || c == '-' || c == '~'

/-- Uppercase hexadecimal digit. -/
def hexDigitU (n : Nat) : Char :=
  if n < 10 then Char.ofNat (48 + n) else Char.ofNat (55 + n)

/-- `quote_plus` on one character (byte-accurate for the ASCII range). -/
def quoteCharList (c : Char) : List Char :=
  if isUrlSafe c then [c]
  else if c == ' ' then ['+']
  else ['%', hexDigitU (c.toNat / 16 % 16), hexDigitU (c.toNat % 16)]

/-- `urllib.parse.quote_plus`. -/
def quotePlus (s : String) : String :=
  ⟨(s.data.map quoteCharList).flatten⟩

/-- One `k=v` fragment of `urlencode`: both sides quoted, the value first
rendered with `str()`. -/
def urlencodePair (kv : String × PVal) : String :=
  quotePlus kv.1 ++ "=" ++ quotePlus (pyStr kv.2)

/-- `urllib.parse.urlencode(params)`: the fragments joined with `&`, in
insertion order. -/
def urlencode (ps : List (String × PVal)) : String :=
  String.intercalate "&" (ps.map urlencodePair)

/-- `get_final_url(base_url, params)`. -/
def getFinalUrl (baseUrl : String) (ps : List (String × PVal)) : String :=
  baseUrl ++ "&" ++ urlencode ps

/-- One `if value: params[k] = value` statement: the pair is appended
exactly when the argument was supplied with a truthy value. -/
def addIf (ps : List (String × PVal)) (k : String) (v : Option PVal) : List (String × PVal) :=
  match v with
  | Option.none => ps
  | some w => if pyTruthy w then ps ++ [(k, w)] else ps

/-- A chain of such statements over an empty initial dict. -/
def buildParams (args : List (String × Option PVal)) : List (String × PVal) :=
  args.foldl (fun ps kv => addIf ps kv.1 kv.2) []

/-- The keyword arguments of `get_stock_history` paired with their query
keys, in the source order of its `if` chain. -/
def stockHistoryArgs (fromDate toDate numOfPeriods exchange extended country
    adjustSplits adjustDividends : Option PVal) : List (String × Option PVal) :=
  [("from", fromDate), ("to", toDate), ("countback", numOfPeriods),
   ("exchange", exchange), ("extended", extended), ("country", country),
   ("adjustsplits", adjustSplits), ("adjustdividends", adjustDividends)]

/-- The `params` dict `get_stock_history` hands to `get_final_url`. -/
def stockHistoryParams (fromDate toDate numOfPeriods exchange extended country
    adjustSplits adjustDividends : Option PVal) : List (String × PVal) :=
  buildParams (stockHistoryArgs fromDate toDate numOfPeriods exchange extended country
    adjustSplits adjustDividends)

/-! ## Concrete fixtures used by the closed theorems -/

/-- A candle body `{"s":"ok","t":t,"o":o,"h":h,"l":l,"c":c,"v":v}`. -/
def candleBody (t o h l c v : List Cell) : Body :=
  [("s", JField.scalar (Cell.str "ok")), ("t", JField.array t), ("o", JField.array o),
   ("h", JField.array h), ("l", JField.array l), ("c", JField.array c),
   ("v", JField.array v)]

/-- A market-status body `{"s":"ok","date":ds,"status":ss}`. -/
def marketStatusOkBody (ds ss : List Cell) : Body :=
  [("s", JField.scalar (Cell.str "ok")), ("date", JField.array ds),
   ("status", JField.array ss)]

/-- An option-chain body `{"s":"ok", ...}` with one array per wire field. -/
def ocBody (data : String → List Cell) : Body :=
  ("s", JField.scalar (Cell.str "ok")) :: ocWireKeys.map (fun k => (k, JField.array (data k)))

/-- The no-data body `{"s":"no_data"}`. -/
def noDataBody : Body :=
  [("s", JField.scalar (Cell.str "no_data"))]

/-- An error body `{"s":"error","errmsg":m}`. -/
def errBody (m : String) : Body :=
  [("s", JField.scalar (Cell.str "error")), ("errmsg", JField.scalar (Cell.str m))]

/-- Headers carrying none of the rate-limit fields. -/
def emptyHeaders : String → Option String := fun _ => Option.none

/-- Headers carrying the four rate-limit fields with integer values. -/
def sampleHeaders : String → Option String := fun k =>
  if k == hdrLimit then some "100"
  else if k == hdrConsumed then some "60"
  else if k == hdrReset then some "1700000000"
  else if k == hdrRemaining then some "40"
  else Option.none

/-- The candle body of the spec's AAPL example. -/
def aaplCandleBody : Body :=
  candleBody [Cell.num 100, Cell.num 200] [Cell.num 1.0, Cell.num 1.1]
    [Cell.num 1.2, Cell.num 1.3] [Cell.num 0.9, Cell.num 1.0]
    [Cell.num 1.1, Cell.num 1.2] [Cell.num 10, Cell.num 20]

/-- The columns of `pd.DataFrame(response_json)` for an option-chain body
whose arrays all have length `n`: the broadcast `'s'` scalar first, then
one column per wire field in key order. -/
def ocParsedCols (n : Nat) (data : String → List Cell) : List Col :=
  [⟨"s", List.replicate n (Cell.str "ok")⟩,
   ⟨"updated", data "updated"⟩, ⟨"optionSymbol", data "optionSymbol"⟩,
   ⟨"underlying", data "underlying"⟩, ⟨"expiration", data "expiration"⟩,
   ⟨"side", data "side"⟩, ⟨"strike", data "strike"⟩,
   ⟨"firstTraded", data "firstTraded"⟩, ⟨"dte", data "dte"⟩,
   ⟨"bid", data "bid"⟩, ⟨"bidSize", data "bidSize"⟩, ⟨"mid", data "mid"⟩,
   ⟨"ask", data "ask"⟩, ⟨"askSize", data "askSize"⟩, ⟨"last", data "last"⟩,
   ⟨"openInterest", data "openInterest"⟩, ⟨"volume", data "volume"⟩,
   ⟨"inTheMoney", data "inTheMoney"⟩, ⟨"intrinsicValue", data "intrinsicValue"⟩,
   ⟨"extrinsicValue", data "extrinsicValue"⟩, ⟨"underlyingPrice", data "underlyingPrice"⟩,
   ⟨"iv", data "iv"⟩, ⟨"delta", data "delta"⟩, ⟨"gamma", data "gamma"⟩,
   ⟨"theta", data "theta"⟩, ⟨"vega", data "vega"⟩, ⟨"rho", data "rho"⟩]

/-- The columns the option-chain normalization finally returns: the 26
renamed fields in the fixed output order, the status column gone. -/
def ocResultCols (data : String → List Cell) : List Col :=
  [⟨"updated", data "updated"⟩, ⟨"option_symbol", data "optionSymbol"⟩,
   ⟨"underlying", data "underlying"⟩, ⟨"expiry_date", data "expiration"⟩,
   ⟨"option_type", data "side"⟩, ⟨"strike_price", data "strike"⟩,
   ⟨"first_traded_date", data "firstTraded"⟩, ⟨"dte", data "dte"⟩,
   ⟨"bid", data "bid"⟩, ⟨"bid_size", data "bidSize"⟩, ⟨"mid", data "mid"⟩,
   ⟨"ask", data "ask"⟩, ⟨"ask_size", data "askSize"⟩, ⟨"last_price", data "last"⟩,
   ⟨"open_interest", data "openInterest"⟩, ⟨"volume", data "volume"⟩,
   ⟨"in_the_money", data "inTheMoney"⟩, ⟨"intrinsic_value", data "intrinsicValue"⟩,
   ⟨"extrnisic_value", data "extrinsicValue"⟩, ⟨"underlying_price", data "underlyingPrice"⟩,
   ⟨"iv", data "iv"⟩, ⟨"delta", data "delta"⟩, ⟨"gamma", data "gamma"⟩,
   ⟨"theta", data "theta"⟩, ⟨"vega", data "vega"⟩, ⟨"rho", data "rho"⟩]

/-- A state whose last observation reported zero remaining quota. -/
def exhaustedState : RateLimitState :=
  ⟨some 100, some 100, some 0, some 1700000000⟩


/-! # Theorems

Helper lemmas first, then one theorem (with witness or counterexample
where due) per claim of the specification review. -/

theorem typeLetter_length (ot : OptionType) : (typeLetter ot).length = 1 := by
  cases ot <;> rfl

theorem zfill_length (w : Nat) (s : String) :
    (zfill w s).length = (w - s.length) + s.length := by
  obtain ⟨l⟩ := s
  simp [zfill, String.length]

theorem zfill_of_ge (w : Nat) (s : String) (h : w ≤ s.length) : zfill w s = s := by
  unfold zfill
  rw [Nat.sub_eq_zero_of_le h]
  rfl

theorem pyNatStrAux_length_le (fuel : Nat) :
    ∀ n k : Nat, n < fuel → n < 10 ^ k → 1 ≤ k → (pyNatStrAux fuel n).length ≤ k := by
  induction fuel with
  | zero => intro n k h _ _; omega
  | succ fuel ih =>
    intro n k hn hk hk1
    simp only [pyNatStrAux]
    by_cases h10 : n < 10
    · simpa [h10] using hk1
    · simp only [if_neg h10, List.length_append, List.length_singleton]
      have hnpos : 0 < n := by omega
      have hdiv : n / 10 < n := Nat.div_lt_self hnpos (by norm_num)
      have hfuel : n / 10 < fuel := by omega
      have hk2 : 2 ≤ k := by
        rcases Nat.lt_or_ge k 2 with h | h
        · exfalso
          have hk1' : k = 1 := by omega
          rw [hk1'] at hk
          simp at hk
          omega
        · exact h
      have hsub : n / 10 < 10 ^ (k - 1) := by
        apply Nat.div_lt_of_lt_mul
        have h1 : 10 * 10 ^ (k - 1) = 10 ^ k := by
          rw [← pow_succ']
          congr 1
          omega
        rw [h1]
        exact hk
      have := ih (n / 10) (k - 1) hfuel hsub (by omega)
      omega

theorem pyNatStrAux_length_ge (fuel : Nat) :
    ∀ n k : Nat, n < fuel → 10 ^ k ≤ n → k + 1 ≤ (pyNatStrAux fuel n).length := by
  induction fuel with
  | zero => intro n k h _; omega
  | succ fuel ih =>
    intro n k hn hk
    simp only [pyNatStrAux]
    by_cases h10 : n < 10
    · simp only [if_pos h10, List.length_singleton]
      have hk0 : k = 0 := by
        by_contra hne
        have h1 : 1 ≤ k := by omega
        have h2 : (10:Nat) ^ 1 ≤ 10 ^ k := Nat.pow_le_pow_right (by norm_num) h1
        simp at h2
        omega
      omega
    · simp only [if_neg h10, List.length_append, List.length_singleton]
      cases k with
      | zero => omega
      | succ k2 =>
        have hnpos : 0 < n := by omega
        have hdiv : n / 10 < n := Nat.div_lt_self hnpos (by norm_num)
        have hfuel : n / 10 < fuel := by omega
        have hge : 10 ^ k2 ≤ n / 10 := by
          rw [Nat.le_div_iff_mul_le (show (0:Nat) < 10 by norm_num)]
          calc 10 ^ k2 * 10 = 10 ^ (k2 + 1) := by rw [pow_succ]
            _ ≤ n := hk
        have := ih (n / 10) k2 hfuel hge
        omega

theorem pyNatStr_length_le (n k : Nat) (hk : 1 ≤ k) (h : n < 10 ^ k) :
    (pyNatStr n).length ≤ k :=
  pyNatStrAux_length_le (n + 1) n k (Nat.lt_succ_self n) h hk

theorem pyNatStr_length_ge (n k : Nat) (h : 10 ^ k ≤ n) :
    k + 1 ≤ (pyNatStr n).length :=
  pyNatStrAux_length_ge (n + 1) n k (Nat.lt_succ_self n) h

theorem pyInt_of_nonneg (q : ℚ) (h : 0 ≤ q) : pyInt q = ⌊q⌋ := if_pos h

theorem pyInt_nonneg (q : ℚ) (h : 0 ≤ q) : 0 ≤ pyInt q := by
  rw [pyInt_of_nonneg q h]
  exact Int.floor_nonneg.mpr h

theorem pyInt_natCast (n : Nat) : pyInt (n : ℚ) = (n : Int) := by
  rw [pyInt_of_nonneg _ (by positivity)]
  exact Int.floor_natCast n

theorem pyIntStr_of_nonneg (i : Int) (h : 0 ≤ i) : pyIntStr i = pyNatStr i.toNat := by
  unfold pyIntStr
  rw [if_neg (by omega)]

theorem fmtYYMMDD_length (y m d : Nat) (hm : m < 100) (hd : d < 100) :
    (fmtYYMMDD ⟨y, m, d⟩).length = 6 := by
  have h100 : (10:Nat) ^ 2 = 100 := by norm_num
  have hy : (pyNatStr (y % 100)).length ≤ 2 := by
    apply pyNatStr_length_le _ 2 (by norm_num)
    rw [h100]
    exact Nat.mod_lt y (by norm_num)
  have hm2 : (pyNatStr m).length ≤ 2 := by
    apply pyNatStr_length_le _ 2 (by norm_num)
    omega
  have hd2 : (pyNatStr d).length ≤ 2 := by
    apply pyNatStr_length_le _ 2 (by norm_num)
    omega
  show (zfill 2 (pyNatStr (y % 100)) ++ zfill 2 (pyNatStr m) ++ zfill 2 (pyNatStr d)).length = 6
  rw [String.length_append, String.length_append, zfill_length, zfill_length, zfill_length]
  omega

/-- C1 (amended): for every valid input — any underlying, a date with
in-range month and day, either option type, and a positive strike whose
truncated scaled value `int(strikePrice * 1000)` fits in 8 digits — the
symbol derivation is deterministic (it is a pure function), its output has
length `len(underlying) + 6 + 1 + 8`, and the spec's example holds:
IBM / 2023-02-10 / Call / 140 yields "IBM230210C00140000".  Amendment
against the original claim: the 8 strike digits are the truncation
`int(strikePrice * 1000)` of the scaled strike, not `round(...)` — see
`c1_counterexample`. -/
theorem c1_option_symbol_shape (u : String) (y m d : Nat) (ot : OptionType) (strike : ℚ)
    (hm : m < 100) (hd : d < 100) (hpos : 0 < strike)
    (hfit : pyInt (strike * 1000) < 100000000) :
    (getOptionSymbol u ⟨y, m, d⟩ ot strike).length = u.length + 6 + 1 + 8
  ∧ getOptionSymbol "IBM" ⟨2023, 2, 10⟩ OptionType.call 140 = "IBM230210C00140000" := by
  constructor
  · have hq : (0:ℚ) ≤ strike * 1000 := by positivity
    have h0 : 0 ≤ pyInt (strike * 1000) := pyInt_nonneg _ hq
    have hlen : (pyNatStr (pyInt (strike * 1000)).toNat).length ≤ 8 := by
      apply pyNatStr_length_le _ 8 (by norm_num)
      have h8 : (10:Nat) ^ 8 = 100000000 := by norm_num
      rw [h8]
      omega
    unfold getOptionSymbol
    rw [pyIntStr_of_nonneg _ h0]
    rw [String.length_append, String.length_append, String.length_append,
      fmtYYMMDD_length y m d hm hd, typeLetter_length, zfill_length]
    omega
  · have he : pyInt ((140:ℚ) * 1000) = (140000 : Int) := by
      have h1 : ((140:ℚ) * 1000) = ((140000 : Nat) : ℚ) := by norm_num
      rw [h1, pyInt_natCast]
      norm_cast
    unfold getOptionSymbol
    rw [he]
    decide

/-- Witness for `c1_option_symbol_shape`: the hypotheses discharged at the
spec's own example, underlying "IBM" (length 3), date 2023-02-10, a call,
strike 140. -/
theorem c1_witness :
    (getOptionSymbol "IBM" ⟨2023, 2, 10⟩ OptionType.call 140).length = "IBM".length + 6 + 1 + 8 := by
  have he : pyInt ((140:ℚ) * 1000) = (140000 : Int) := by
    have h1 : ((140:ℚ) * 1000) = ((140000 : Nat) : ℚ) := by norm_num
    rw [h1, pyInt_natCast]
    norm_cast
  exact (c1_option_symbol_shape "IBM" 2023 2 10 OptionType.call 140 (by norm_num) (by norm_num)
    (by norm_num) (by rw [he]; norm_num)).1

/-- C1 counterexample: at the valid input strike = 0.9996 (positive
decimal; its scaled value rounds to 1000, well within 8 digits) the code's
symbol carries the truncated digits 00000999, while the claim's formula
with `round(strikePrice * 1000)` prescribes 00001000 — so the output is
not the concatenation the claim states. -/
theorem c1_counterexample :
    getOptionSymbol "IBM" ⟨2023, 2, 10⟩ OptionType.call (0.9996 : ℚ) = "IBM230210C00000999"
  ∧ "IBM" ++ fmtYYMMDD ⟨2023, 2, 10⟩ ++ typeLetter OptionType.call ++
      zfill 8 (pyIntStr (claimRound ((0.9996 : ℚ) * 1000))) = "IBM230210C00001000"
  ∧ ("IBM230210C00000999" : String) ≠ "IBM230210C00001000" := by
  have h1 : pyInt ((0.9996 : ℚ) * 1000) = (999 : Int) := by
    unfold pyInt
    rw [if_pos (by norm_num)]
    rw [Int.floor_eq_iff]
    constructor <;> norm_num
  have h2 : claimRound ((0.9996 : ℚ) * 1000) = (1000 : Int) := by
    unfold claimRound
    rw [Int.floor_eq_iff]
    constructor <;> norm_num
  refine ⟨?_, ?_, by decide⟩
  · unfold getOptionSymbol
    rw [h1]
    decide
  · rw [h2]
    decide

/-- C3 (amended): the derivation performs no strike validation at all.
For every strike whose truncated scaled value needs more than 8 digits the
symbol is still produced — the digits are emitted unpadded, making the
output strictly longer than `len(underlying) + 15` — and no
InvalidStrikePrice failure exists anywhere in either source function
(their only raisable step is the date parse).  The original claim's
required failure is refuted by `c3_counterexample`. -/
theorem c3_no_strike_validation (u : String) (y m d : Nat) (ot : OptionType) (strike : ℚ)
    (hm : m < 100) (hd : d < 100)
    (hbig : 100000000 ≤ pyInt (strike * 1000)) :
    getOptionSymbol u ⟨y, m, d⟩ ot strike
      = u ++ fmtYYMMDD ⟨y, m, d⟩ ++ typeLetter ot ++ pyIntStr (pyInt (strike * 1000))
  ∧ u.length + 6 + 1 + 8 < (getOptionSymbol u ⟨y, m, d⟩ ot strike).length := by
  have h0 : 0 ≤ pyInt (strike * 1000) := by omega
  have hstr : pyIntStr (pyInt (strike * 1000)) = pyNatStr (pyInt (strike * 1000)).toNat :=
    pyIntStr_of_nonneg _ h0
  have hge : 9 ≤ (pyNatStr (pyInt (strike * 1000)).toNat).length := by
    have h8 : (10:Nat) ^ 8 ≤ (pyInt (strike * 1000)).toNat := by
      have : (10:Nat) ^ 8 = 100000000 := by norm_num
      omega
    exact pyNatStr_length_ge _ 8 h8
  have hz : zfill 8 (pyIntStr (pyInt (strike * 1000))) = pyIntStr (pyInt (strike * 1000)) := by
    apply zfill_of_ge
    rw [hstr]
    omega
  constructor
  · unfold getOptionSymbol
    rw [hz]
  · unfold getOptionSymbol
    rw [hz, String.length_append, String.length_append, String.length_append,
      fmtYYMMDD_length y m d hm hd, typeLetter_length, hstr]
    omega

/-- Witness for `c3_no_strike_validation` at the claim's own input,
strike = 100000000: the scaled value is 10^11 and the produced symbol is
longer than the fixed-width format. -/
theorem c3_witness :
    "IBM".length + 6 + 1 + 8
      < (getOptionSymbol "IBM" ⟨2023, 2, 10⟩ OptionType.call 100000000).length := by
  have he : pyInt ((100000000:ℚ) * 1000) = (100000000000 : Int) := by
    have h1 : ((100000000:ℚ) * 1000) = ((100000000000 : Nat) : ℚ) := by norm_num
    rw [h1, pyInt_natCast]
    norm_cast
  exact (c3_no_strike_validation "IBM" 2023 2 10 OptionType.call 100000000 (by norm_num)
    (by norm_num) (by rw [he]; norm_num)).2

/-- C3 counterexample: at strike = 100000000 — the claim's own example,
whose scaled value 10^11 needs 12 digits — the derivation does not fail
with InvalidStrikePrice; it returns a 22-character symbol embedding the
digits unpadded. -/
theorem c3_counterexample :
    getOptionSymbol "IBM" ⟨2023, 2, 10⟩ OptionType.call 100000000
      = "IBM230210C100000000000" := by
  have he : pyInt ((100000000:ℚ) * 1000) = (100000000000 : Int) := by
    have h1 : ((100000000:ℚ) * 1000) = ((100000000000 : Nat) : ℚ) := by norm_num
    rw [h1, pyInt_natCast]
    norm_cast
  unfold getOptionSymbol
  rw [he]
  decide

/-- C4 (amended): an unknown status discriminator is never treated as
success — the payload is normalized only when `s` is exactly `'ok'`, every
other value being routed to `process_not_ok_response` — but classification
does not fail with an UnrecognizedStatus error either: the `match` there
has no case for an unknown value, so Python returns `None`, and the
operation hands that `None` back to its caller as the result. -/
theorem c4_unknown_status (body : Body) (hf : String → Option String) (sym : String)
    (sv : JField)
    (hs : Body.get? body "s" = some sv)
    (hok : sv ≠ JField.scalar (Cell.str "ok"))
    (hnd : sv ≠ JField.scalar (Cell.str "no_data"))
    (herr : sv ≠ JField.scalar (Cell.str "error")) :
    processNotOkResponse body = Except.ok Option.none
  ∧ getHistory ⟨hf, some body⟩ sym = Except.ok (PyRet.message Option.none) := by
  have hp : processNotOkResponse body = Except.ok Option.none := by
    unfold processNotOkResponse
    rw [hs]
    dsimp only
    rw [if_neg hnd, if_neg herr]
  refine ⟨hp, ?_⟩
  unfold getHistory
  dsimp only
  rw [hs]
  dsimp only
  rw [if_neg hok, hp]
  rfl

/-- Witness for `c4_unknown_status` at the concrete body with the unknown
discriminator "weird". -/
theorem c4_witness :
    processNotOkResponse [("s", JField.scalar (Cell.str "weird"))] = Except.ok Option.none :=
  (c4_unknown_status [("s", JField.scalar (Cell.str "weird"))] emptyHeaders "X"
    (JField.scalar (Cell.str "weird")) rfl (by decide) (by decide) (by decide)).1

/-- C4 counterexample: on the body with status discriminator "bogus",
classification does not fail — `process_not_ok_response` returns Python
`None` successfully, and the history operation returns that `None` as a
non-error result, contradicting the required UnrecognizedStatus failure. -/
theorem c4_counterexample :
    processNotOkResponse [("s", JField.scalar (Cell.str "bogus"))] = Except.ok Option.none
  ∧ getHistory ⟨emptyHeaders, some [("s", JField.scalar (Cell.str "bogus"))]⟩ "AAPL"
      = Except.ok (PyRet.message Option.none) := by
  constructor <;> rfl

/-- C5 (amended): normalizing a status-ok market-status body yields the
table with exactly the two columns date and status whose rows are the
element-wise `zip` of the source's parallel arrays; when the arrays have
equal length that is one row per calendar date, but mismatched lengths do
not fail with MalformedResponse — Python's `zip` silently truncates to the
shorter array, so the table simply has `min` rows (see
`c5_counterexample`). -/
theorem c5_market_status_zip (ds ss : List Cell) :
    getMarketStatusBody (marketStatusOkBody ds ss)
      = Except.ok (PyRet.table ⟨[⟨"date", (ds.zip ss).map Prod.fst⟩,
          ⟨"status", (ds.zip ss).map Prod.snd⟩]⟩)
  ∧ (DataFrame.mk [⟨"date", (ds.zip ss).map Prod.fst⟩,
        ⟨"status", (ds.zip ss).map Prod.snd⟩]).colNames = ["date", "status"]
  ∧ (DataFrame.mk [⟨"date", (ds.zip ss).map Prod.fst⟩,
        ⟨"status", (ds.zip ss).map Prod.snd⟩]).nrows = min ds.length ss.length
  ∧ (ds.length = ss.length →
      DataFrame.mk [⟨"date", (ds.zip ss).map Prod.fst⟩, ⟨"status", (ds.zip ss).map Prod.snd⟩]
        = ⟨[⟨"date", ds⟩, ⟨"status", ss⟩]⟩) := by
  refine ⟨rfl, rfl, ?_, ?_⟩
  · show ((ds.zip ss).map Prod.fst).length = min ds.length ss.length
    rw [List.length_map]
    exact List.length_zip ds ss
  · intro hlen
    have h1 : (ds.zip ss).map Prod.fst = ds := List.map_fst_zip ds ss (by omega)
    have h2 : (ds.zip ss).map Prod.snd = ss := List.map_snd_zip ds ss (by omega)
    rw [h1, h2]

/-- C5 counterexample: a status-ok body whose date array has two entries
and whose status array has one does not fail with MalformedResponse — the
zip truncates and a one-row table is returned successfully. -/
theorem c5_counterexample :
    getMarketStatusBody (marketStatusOkBody
        [Cell.str "2023-01-02", Cell.str "2023-01-03"] [Cell.str "open"])
      = Except.ok (PyRet.table ⟨[⟨"date", [Cell.str "2023-01-02"]⟩,
          ⟨"status", [Cell.str "open"]⟩]⟩) := by
  rfl

/-- C6 (confirmed): normalizing a status-ok candle body for a requested
symbol yields columns exactly symbol, date, close, high, low, open, volume
in that order, the symbol column holding the request's symbol in every one
of the `t.length` rows (one per timestamp) — nothing is taken from the
response for it.  The spec's AAPL example is `c6_witness`. -/
theorem c6_candles (hf : String → Option String) (sym : String) (t o h l c v : List Cell)
    (ho : o.length = t.length) (hh : h.length = t.length) (hl : l.length = t.length)
    (hc : c.length = t.length) (hv : v.length = t.length) :
    getHistory ⟨hf, some (candleBody t o h l c v)⟩ sym
      = Except.ok (PyRet.table ⟨[⟨"symbol", List.replicate t.length (Cell.str sym)⟩,
          ⟨"date", t⟩, ⟨"close", c⟩, ⟨"high", h⟩, ⟨"low", l⟩, ⟨"open", o⟩,
          ⟨"volume", v⟩]⟩) := by
  have hdf : mkDataFrame (candleBody t o h l c v)
      = some ⟨[⟨"s", List.replicate t.length (Cell.str "ok")⟩, ⟨"t", t⟩, ⟨"o", o⟩,
          ⟨"h", h⟩, ⟨"l", l⟩, ⟨"c", c⟩, ⟨"v", v⟩]⟩ := by
    unfold mkDataFrame arrayLens candleBody
    simp [ho, hh, hl, hc, hv]
  have hset : (DataFrame.mk [⟨"s", List.replicate t.length (Cell.str "ok")⟩, ⟨"t", t⟩,
        ⟨"o", o⟩, ⟨"h", h⟩, ⟨"l", l⟩, ⟨"c", c⟩, ⟨"v", v⟩]).setConst "symbol" (Cell.str sym)
      = ⟨[⟨"s", List.replicate t.length (Cell.str "ok")⟩, ⟨"t", t⟩, ⟨"o", o⟩, ⟨"h", h⟩,
          ⟨"l", l⟩, ⟨"c", c⟩, ⟨"v", v⟩, ⟨"symbol", List.replicate t.length (Cell.str sym)⟩]⟩ := by
    unfold DataFrame.setConst DataFrame.colNames DataFrame.nrows
    simp [List.length_replicate]
  have hmain : getHistory ⟨hf, some (candleBody t o h l c v)⟩ sym
      = match mkDataFrame (candleBody t o h l c v) with
        | Option.none => Except.error PyError.valueError
        | some df => Except.ok (PyRet.table
            ((((df.setConst "symbol" (Cell.str sym)).rename candleRenameMap).drop
              ["s"]).reindex candleFinalCols)) := rfl
  rw [hmain, hdf]
  dsimp only
  rw [hset]
  rfl

/-- Witness for `c6_candles`: the spec's example body normalized for
"AAPL" — two rows, the fixed seven columns in order, symbol "AAPL" in both
rows. -/
theorem c6_witness :
    getHistory ⟨emptyHeaders, some aaplCandleBody⟩ "AAPL"
      = Except.ok (PyRet.table ⟨[⟨"symbol", [Cell.str "AAPL", Cell.str "AAPL"]⟩,
          ⟨"date", [Cell.num 100, Cell.num 200]⟩, ⟨"close", [Cell.num 1.1, Cell.num 1.2]⟩,
          ⟨"high", [Cell.num 1.2, Cell.num 1.3]⟩, ⟨"low", [Cell.num 0.9, Cell.num 1.0]⟩,
          ⟨"open", [Cell.num 1.0, Cell.num 1.1]⟩,
          ⟨"volume", [Cell.num 10, Cell.num 20]⟩]⟩) :=
  c6_candles emptyHeaders "AAPL" [Cell.num 100, Cell.num 200] [Cell.num 1.0, Cell.num 1.1]
    [Cell.num 1.2, Cell.num 1.3] [Cell.num 0.9, Cell.num 1.0] [Cell.num 1.1, Cell.num 1.2]
    [Cell.num 10, Cell.num 20] rfl rfl rfl rfl rfl

/-- C8 (confirmed): normalizing a status-ok option-chain body (one array
of length n per wire field) yields one row per contract and the fixed
26-column schema — exactly the claimed labels, in exactly the claimed
order, the misspelling extrnisic_value included — and the source's status
discriminator, renamed to the status column, is dropped before the
reindex, so it never appears among the output columns. -/
theorem c8_option_chain (hf : String → Option String) (n : Nat) (data : String → List Cell)
    (hlen : ∀ k, (data k).length = n) :
    getOptionChainResp ⟨hf, some (ocBody data)⟩
      = Except.ok (PyRet.table ⟨ocResultCols data⟩)
  ∧ (DataFrame.mk (ocResultCols data)).colNames = ocFinalCols
  ∧ ocFinalCols =
      ["updated", "option_symbol", "underlying", "expiry_date", "option_type",
       "strike_price", "first_traded_date", "dte", "bid", "bid_size", "mid", "ask",
       "ask_size", "last_price", "open_interest", "volume", "in_the_money",
       "intrinsic_value", "extrnisic_value", "underlying_price", "iv", "delta",
       "gamma", "theta", "vega", "rho"]
  ∧ ocFinalCols.length = 26
  ∧ "status" ∉ ocFinalCols
  ∧ (DataFrame.mk (ocResultCols data)).nrows = n := by
  refine ⟨?_, rfl, rfl, rfl, by decide, hlen "updated"⟩
  have hdf : mkDataFrame (ocBody data) = some ⟨ocParsedCols n data⟩ := by
    unfold mkDataFrame arrayLens ocBody ocWireKeys ocParsedCols
    simp [hlen]
  have hmain : getOptionChainResp ⟨hf, some (ocBody data)⟩
      = match mkDataFrame (ocBody data) with
        | Option.none => Except.error PyError.valueError
        | some df => Except.ok (PyRet.table
            (((df.rename ocRenameMap).drop ["status"]).reindex ocFinalCols)) := rfl
  rw [hmain, hdf]
  rfl

/-- Witness for `c8_option_chain` at a one-contract chain whose every wire
field is the single-element array [0]. -/
theorem c8_witness :
    getOptionChainResp ⟨emptyHeaders, some (ocBody (fun _ => [Cell.num 0]))⟩
      = Except.ok (PyRet.table ⟨ocResultCols (fun _ => [Cell.num 0])⟩) :=
  (c8_option_chain emptyHeaders 1 (fun _ => [Cell.num 0]) (fun _ => rfl)).1

theorem canProceed_iff (st : RateLimitState) :
    canProceed st = true ↔ st.remaining = Option.none ∨ ∃ r, st.remaining = some r ∧ 0 < r := by
  unfold canProceed
  cases hrem : st.remaining with
  | none => simp [hrem]
  | some r => simp [hrem]

theorem canProceed_zero (st : RateLimitState) (h : st.remaining = some 0) :
    canProceed st = false := by
  unfold canProceed
  rw [h]
  rfl

theorem getDataFromUrl_denied (st : RateLimitState) (resp : Response)
    (h : canProceed st = false) :
    getDataFromUrl st resp = ⟨Except.ok (PyObj.pystr "Rate Limit Exceeded"), st, false⟩ := by
  unfold getDataFromUrl
  rw [if_neg (by simp [h])]

theorem runCalls_exhausted (rs : List Response) : ∀ st : RateLimitState,
    st.remaining = some 0 → runCalls st rs = st := by
  induction rs with
  | nil => intro st _; rfl
  | cons r rs ih =>
    intro st h
    show runCalls (getDataFromUrl st r).state rs = st
    rw [getDataFromUrl_denied st r (canProceed_zero st h)]
    exact ih st h

/-- C2 (amended): the gate `canProceed` is true exactly when the tracked
remaining value is unset or positive; while it is false no HTTP request is
sent — `get_data_from_url` returns the locally generated string
"Rate Limit Exceeded" (a value distinct from the no-data outcome
"No Data") with the state untouched, but the public market-status
operation then raises AttributeError formatting `response.status_code` on
that string rather than returning it; and once an observation has set
remaining to 0 the gate stays false across any further calls (denied calls
never change the state, so no later observation can reopen it through this
client).  A server-error outcome is the verbatim `errmsg` string, so it is
distinguishable from the denial value only while the server never sends
exactly "Rate Limit Exceeded" (see `c2_counterexample`). -/
theorem c2_rate_limit_gate (st : RateLimitState) (resp : Response) (rs : List Response)
    (m : String) :
    (canProceed st = true ↔ st.remaining = Option.none ∨ ∃ r, st.remaining = some r ∧ 0 < r)
  ∧ (canProceed st = false →
      getDataFromUrl st resp = ⟨Except.ok (PyObj.pystr "Rate Limit Exceeded"), st, false⟩
      ∧ (getMarketStatusStep st resp).result = Except.error PyError.attributeError
      ∧ (getMarketStatusStep st resp).sent = false)
  ∧ (st.remaining = some 0 → runCalls st rs = st ∧ canProceed (runCalls st rs) = false)
  ∧ processNotOkResponse noDataBody = Except.ok (some (JField.scalar (Cell.str "No Data")))
  ∧ ("No Data" : String) ≠ "Rate Limit Exceeded"
  ∧ processNotOkResponse (errBody m) = Except.ok (some (JField.scalar (Cell.str m))) := by
  refine ⟨canProceed_iff st, ?_, ?_, rfl, by decide, rfl⟩
  · intro h
    have hd := getDataFromUrl_denied st resp h
    refine ⟨hd, ?_, ?_⟩ <;> · unfold getMarketStatusStep; rw [hd]
  · intro h
    refine ⟨runCalls_exhausted rs st h, ?_⟩
    rw [runCalls_exhausted rs st h]
    exact canProceed_zero st h

/-- C2 counterexample: with the gate closed (last observed remaining = 0)
the market-status operation raises AttributeError instead of returning a
locally generated rate-limit outcome — and even the string that
`get_data_from_url` does produce coincides with a genuine server-error
outcome whose errmsg is "Rate Limit Exceeded", so the two outcomes are not
distinguishable as the claim requires.  No request is sent, as claimed. -/
theorem c2_counterexample :
    (getMarketStatusStep exhaustedState ⟨sampleHeaders, some noDataBody⟩).result
      = Except.error PyError.attributeError
  ∧ (getMarketStatusStep exhaustedState ⟨sampleHeaders, some noDataBody⟩).sent = false
  ∧ (getDataFromUrl exhaustedState ⟨sampleHeaders, some noDataBody⟩).result
      = Except.ok (PyObj.pystr "Rate Limit Exceeded")
  ∧ processNotOkResponse (errBody "Rate Limit Exceeded")
      = Except.ok (some (JField.scalar (Cell.str "Rate Limit Exceeded"))) :=
  ⟨rfl, rfl, rfl, rfl⟩

/-- C9 (confirmed): after a transport call that yields a response whose
four rate-limit headers parse as integers, all four stored fields are
overwritten with exactly the observed values — the post-state is
independent of the prior state, the server's last observation being
authoritative — and a denied call leaves the state untouched, so the
client never decrements remaining speculatively between calls. -/
theorem c9_observe_overwrites (st st2 : RateLimitState) (resp : Response)
    (lim con rst rem : Int)
    (hp : canProceed st = true)
    (h1 : parseHeaderInt resp.headers hdrLimit = Except.ok lim)
    (h2 : parseHeaderInt resp.headers hdrConsumed = Except.ok con)
    (h3 : parseHeaderInt resp.headers hdrReset = Except.ok rst)
    (h4 : parseHeaderInt resp.headers hdrRemaining = Except.ok rem) :
    getDataFromUrl st resp
      = ⟨Except.ok (PyObj.resp resp), ⟨some lim, some con, some rem, some rst⟩, true⟩
  ∧ (canProceed st2 = false → (getDataFromUrl st2 resp).state = st2) := by
  constructor
  · unfold getDataFromUrl
    rw [if_pos hp, h1]
    dsimp only
    rw [h2]
    dsimp only
    rw [h3]
    dsimp only
    rw [h4]
  · intro h
    rw [getDataFromUrl_denied st2 resp h]

/-- Witness for `c9_observe_overwrites`: a fresh client observing headers
limit 100, consumed 60, reset 1700000000, remaining 40. -/
theorem c9_witness :
    getDataFromUrl initRateLimitState ⟨sampleHeaders, some noDataBody⟩
      = ⟨Except.ok (PyObj.resp ⟨sampleHeaders, some noDataBody⟩),
         ⟨some 100, some 60, some 40, some 1700000000⟩, true⟩ :=
  (c9_observe_overwrites initRateLimitState initRateLimitState ⟨sampleHeaders, some noDataBody⟩
    100 60 1700000000 40 rfl rfl rfl rfl rfl).1

theorem getDataFromUrl_header_error (st : RateLimitState) (resp : Response) (e : PyError)
    (hp : canProceed st = true)
    (he : firstHeaderError resp.headers = some e) :
    (getDataFromUrl st resp).result = Except.error e
  ∧ (getDataFromUrl st resp).sent = true := by
  unfold firstHeaderError at he
  unfold getDataFromUrl
  rw [if_pos hp]
  cases hh1 : parseHeaderInt resp.headers hdrLimit with
  | error e1 =>
    rw [hh1] at he
    simp only [Option.some.injEq] at he
    subst he
    exact ⟨rfl, rfl⟩
  | ok lim =>
    rw [hh1] at he
    dsimp only at he
    cases hh2 : parseHeaderInt resp.headers hdrConsumed with
    | error e2 =>
      rw [hh2] at he
      simp only [Option.some.injEq] at he
      subst he
      exact ⟨rfl, rfl⟩
    | ok con =>
      rw [hh2] at he
      dsimp only at he
      cases hh3 : parseHeaderInt resp.headers hdrReset with
      | error e3 =>
        rw [hh3] at he
        simp only [Option.some.injEq] at he
        subst he
        exact ⟨rfl, rfl⟩
      | ok rst =>
        rw [hh3] at he
        dsimp only at he
        cases hh4 : parseHeaderInt resp.headers hdrRemaining with
        | error e4 =>
          rw [hh4] at he
          simp only [Option.some.injEq] at he
          subst he
          exact ⟨rfl, rfl⟩
        | ok rem =>
          rw [hh4] at he
          simp at he

/-- C10 (amended — scoped to the MarketDataAPI class): the class routes
every HTTP call through `get_data_from_url`, which reads all four
rate-limit headers unconditionally before returning the response; when any
of the four is missing (KeyError) or not an integer (ValueError), that
exception propagates out of the operation before the body is ever
classified — the conclusion holds for an arbitrary response body, in
particular a valid status-ok payload.  The original claim's "every
operation that performs an HTTP call" is refuted by `c10_counterexample`:
the function-based marketdata package performs its calls without reading
any rate-limit header. -/
theorem c10_headers_before_body (st : RateLimitState) (resp : Response) (e : PyError)
    (hp : canProceed st = true)
    (he : firstHeaderError resp.headers = some e) :
    (getMarketStatusStep st resp).result = Except.error e
  ∧ (getMarketStatusStep st resp).sent = true := by
  have hg := getDataFromUrl_header_error st resp e hp he
  unfold getMarketStatusStep
  rcases hG : getDataFromUrl st resp with ⟨res, st3, snt⟩
  rw [hG] at hg
  obtain ⟨hr, hs⟩ := hg
  dsimp only at hr hs
  subst hr
  subst hs
  exact ⟨rfl, rfl⟩

/-- Witness for `c10_headers_before_body`: a fresh client receiving a
valid status-ok candle body but no rate-limit headers raises KeyError. -/
theorem c10_witness :
    (getMarketStatusStep initRateLimitState ⟨emptyHeaders, some aaplCandleBody⟩).result
      = Except.error PyError.keyError :=
  (c10_headers_before_body initRateLimitState ⟨emptyHeaders, some aaplCandleBody⟩
    PyError.keyError rfl rfl).1

/-- C10 counterexample: `get_history` of the function-based marketdata
package classifies and normalizes the body of a response that carries no
rate-limit headers at all — a valid status-ok candle payload — and
returns the table successfully; no header is read and no exception is
raised, refuting the claim for that operation. -/
theorem c10_counterexample :
    getHistory ⟨emptyHeaders, some aaplCandleBody⟩ "IBM"
      = Except.ok (PyRet.table ⟨[⟨"symbol", [Cell.str "IBM", Cell.str "IBM"]⟩,
          ⟨"date", [Cell.num 100, Cell.num 200]⟩, ⟨"close", [Cell.num 1.1, Cell.num 1.2]⟩,
          ⟨"high", [Cell.num 1.2, Cell.num 1.3]⟩, ⟨"low", [Cell.num 0.9, Cell.num 1.0]⟩,
          ⟨"open", [Cell.num 1.0, Cell.num 1.1]⟩,
          ⟨"volume", [Cell.num 10, Cell.num 20]⟩]⟩) := by
  rfl

theorem buildParams_go (args : List (String × Option PVal)) : ∀ ps : List (String × PVal),
    args.foldl (fun acc kv => addIf acc kv.1 kv.2) ps
      = ps ++ args.filterMap (fun kv =>
          match kv.2 with
          | some w => if pyTruthy w then some (kv.1, w) else Option.none
          | Option.none => Option.none) := by
  induction args with
  | nil => intro ps; simp
  | cons kv args ih =>
    intro ps
    rw [List.foldl_cons, List.filterMap_cons]
    cases hv : kv.2 with
    | none =>
      have ha : addIf ps kv.1 Option.none = ps := rfl
      rw [ha, ih ps]
    | some w =>
      by_cases ht : pyTruthy w
      · have ha : addIf ps kv.1 (some w) = ps ++ [(kv.1, w)] := by
          unfold addIf
          dsimp only
          rw [if_pos ht]
        rw [ha, ih (ps ++ [(kv.1, w)])]
        dsimp only
        rw [if_pos ht, List.append_assoc]
        rfl
      · have ha : addIf ps kv.1 (some w) = ps := by
          unfold addIf
          dsimp only
          rw [if_neg ht]
        rw [ha, ih ps]
        dsimp only
        rw [if_neg ht]

/-- C7 (amended): the built query contains a key exactly for the
parameters whose supplied value is Python-truthy — an absent argument, an
explicit `False`, `0` or an empty string are all omitted (the source gates
each insertion with `if value:`) — in the fixed insertion order of the
source; and a boolean that does get through is serialized by `urlencode`
with Python's `str()`, yielding the capitalized "True"/"False", not the
API's lowercase literal form the original claim states (see
`c7_counterexample`). -/
theorem c7_query_builder (fd td np ex xt co aj ad : Option PVal) :
    stockHistoryParams fd td np ex xt co aj ad
      = (stockHistoryArgs fd td np ex xt co aj ad).filterMap (fun kv =>
          match kv.2 with
          | some w => if pyTruthy w then some (kv.1, w) else Option.none
          | Option.none => Option.none)
  ∧ (∀ b : Bool, pyStr (PVal.bool b) = if b then "True" else "False")
  ∧ (∀ b : Bool, urlencode [("extended", PVal.bool b)]
      = "extended=" ++ (if b then "True" else "False")) := by
  refine ⟨?_, fun b => rfl, fun b => ?_⟩
  · unfold stockHistoryParams buildParams
    simpa using buildParams_go (stockHistoryArgs fd td np ex xt co aj ad) []
  · cases b <;> rfl

/-- C7 counterexample: supplying `extended=True` to the stock-history
parameter assembly produces the query string "extended=True" — Python's
`str(True)` — which is not the lowercase "extended=true" the claim's
serialization rule requires. -/
theorem c7_counterexample :
    urlencode (stockHistoryParams Option.none Option.none Option.none Option.none
        (some (PVal.bool true)) Option.none Option.none Option.none) = "extended=True"
  ∧ ("extended=True" : String) ≠ "extended=true" :=
  ⟨rfl, by decide⟩
